import Mathlib

/-!
Verification development for the AR-Glasses-Tour-Guide server
(`src/index.ts`).  The whole program is a single class holding four
per-user `Map`s, a handful of event handlers and three HTTP routes; we
embed that state and those handlers shallowly and prove the documented
properties about them.

Modelling conventions:
  * a JavaScript `Map<string, V>` is a function `String → Option V`
    (`set` updates one key, `delete` sets it to `none`, `get` applies);
  * `Date` values and `Date.now()` are epoch milliseconds as `Nat`
    (`timestamp.getTime()` is then the identity);
  * a `Buffer` is its byte list `List Nat`;
  * the outcome of an awaited vendor call (`camera.requestPhoto`,
    `fetch`) is passed to the handler as an explicit argument, since the
    vendor is outside this repository;
  * JavaScript truthiness is made explicit where the code relies on it
    (`!userId` is true for both a missing id and the empty string;
    `map.get(u)` is falsy when the key is absent).
-/

/-- A photo as returned by `session.camera.requestPhoto()` (the fields the
program reads: `requestId`, `buffer`, `timestamp`, `mimeType`, `filename`,
`size`). -/
structure PhotoData where
  requestId : String
  buffer : List Nat
  timestamp : Nat
  mimeType : String
  filename : String
  size : Nat
deriving DecidableEq, Repr

/-- `StoredPhoto` from `src/index.ts`: the cached photo plus its owning
user id. -/
structure StoredPhoto where
  requestId : String
  buffer : List Nat
  timestamp : Nat
  userId : String
  mimeType : String
  filename : String
  size : Nat
deriving DecidableEq, Repr

/-- `Map.prototype.set`: point update of a string-keyed map. -/
def mapSet {α : Type} (m : String → Option α) (k : String) (v : α) :
    String → Option α :=
  fun x => if x = k then some v else m x

/-- `Map.prototype.delete`: remove one key. -/
def mapDelete {α : Type} (m : String → Option α) (k : String) :
    String → Option α :=
  fun x => if x = k then none else m x

/-- The mutable state of `ExampleMentraOSApp`: the four per-user maps
declared at the top of the class. -/
structure AppState where
  photos : String → Option StoredPhoto
  latestPhotoTimestamp : String → Option Nat
  isStreamingPhotos : String → Option Bool
  nextPhotoTime : String → Option Nat

/-- The empty initial state (all four `Map`s start empty). -/
def AppState.initial : AppState :=
  { photos := fun _ => none
    latestPhotoTimestamp := fun _ => none
    isStreamingPhotos := fun _ => none
    nextPhotoTime := fun _ => none }

/-- `cachePhoto(photo, userId)`: builds a `StoredPhoto` record, overwrites
`photos[userId]` with it and sets `latestPhotoTimestamp[userId]` to the
photo timestamp in epoch milliseconds. -/
def cachePhoto (st : AppState) (photo : PhotoData) (userId : String) :
    AppState :=
  let cachedPhoto : StoredPhoto :=
    { requestId := photo.requestId
      buffer := photo.buffer
      timestamp := photo.timestamp
      userId := userId
      mimeType := photo.mimeType
      filename := photo.filename
      size := photo.size }
  { st with
    photos := mapSet st.photos userId cachedPhoto
    latestPhotoTimestamp :=
      mapSet st.latestPhotoTimestamp userId cachedPhoto.timestamp }

/-- The `StoredPhoto` that `cachePhoto` builds from a `PhotoData` and a
user id. -/
def storedOf (photo : PhotoData) (userId : String) : StoredPhoto :=
  { requestId := photo.requestId
    buffer := photo.buffer
    timestamp := photo.timestamp
    userId := userId
    mimeType := photo.mimeType
    filename := photo.filename
    size := photo.size }

/-- Outcome of one awaited `session.camera.requestPhoto()` call: either a
photo together with the time the await completed (`Date.now()` right after
it), or a rejection caught by the surrounding `try`. -/
inductive CaptureOutcome where
  | success (photo : PhotoData) (completionTime : Nat)
  | failure
deriving DecidableEq, Repr

/-- The `onButtonPress` handler body for user `userId`.  Returns the new
state and the number of photo requests the handler issued.  A `'long'`
press toggles `isStreamingPhotos[userId]` (JavaScript `!undefined` is
`true`, so an absent entry toggles to `true`) and returns without touching
the camera; any other press type issues exactly one `requestPhoto`, caching
the photo on success and only logging on failure. -/
def onButtonPress (st : AppState) (userId : String) (pressType : String)
    (outcome : CaptureOutcome) : AppState × Nat :=
  if pressType = "long" then
    ({ st with
       isStreamingPhotos :=
         mapSet st.isStreamingPhotos userId
           (!((st.isStreamingPhotos userId).getD false)) }, 0)
  else
    match outcome with
    | .success photo _ => (cachePhoto st photo userId, 1)
    | .failure => (st, 1)

/-- One tick of the 1-second `setInterval` loop for user `userId`, taken at
time `now`.  Returns the new state and whether a capture was attempted.
The guard is `isStreamingPhotos.get(userId) && Date.now() >
(nextPhotoTime.get(userId) ?? 0)`; when it holds, `nextPhotoTime` is first
advanced to `now + 30000`, then the capture is awaited: on success
`nextPhotoTime` is reset to the completion time and the photo is cached,
on failure the `catch` only logs, leaving `nextPhotoTime` at the advanced
value. -/
def pollTick (st : AppState) (userId : String) (now : Nat)
    (outcome : CaptureOutcome) : AppState × Bool :=
  if (st.isStreamingPhotos userId).getD false = true
      ∧ now > (st.nextPhotoTime userId).getD 0 then
    let st1 := { st with
      nextPhotoTime := mapSet st.nextPhotoTime userId (now + 30000) }
    match outcome with
    | .success photo completionTime =>
        let st2 := { st1 with
          nextPhotoTime := mapSet st1.nextPhotoTime userId completionTime }
        (cachePhoto st2 photo userId, true)
    | .failure => (st1, true)
  else (st, false)

/-- Runs a sequence of poll ticks for `userId`; each list element is the
tick time together with the capture outcome the vendor would produce if a
capture were attempted.  Returns the final state and the number of ticks
that attempted a capture. -/
def runPoll (st : AppState) (userId : String) :
    List (Nat × CaptureOutcome) → AppState × Nat
  | [] => (st, 0)
  | (now, outcome) :: rest =>
      let step := pollTick st userId now outcome
      let tail := runPoll step.1 userId rest
      (tail.1, tail.2 + (if step.2 then 1 else 0))

/-- The `onStop` handler: sets `isStreamingPhotos[userId]` to `false` and
deletes `nextPhotoTime[userId]`; `photos` and `latestPhotoTimestamp` are
untouched. -/
def onStop (st : AppState) (userId : String) : AppState :=
  { st with
    isStreamingPhotos := mapSet st.isStreamingPhotos userId false
    nextPhotoTime := mapDelete st.nextPhotoTime userId }

/-- The state initialisation at the top of `onSession`:
`isStreamingPhotos.set(userId, false)` and
`nextPhotoTime.set(userId, Date.now())`. -/
def onSessionInit (st : AppState) (userId : String) (now : Nat) : AppState :=
  { st with
    isStreamingPhotos := mapSet st.isStreamingPhotos userId false
    nextPhotoTime := mapSet st.nextPhotoTime userId now }

/-- An HTTP response produced by one of the two API routes: an error
status with a JSON `{error: ...}` body, the 200 JSON metadata body of
`/api/latest-photo`, or the 200 binary body of `/api/photo/:requestId`
with its `Content-Type` and `Cache-Control` headers. -/
inductive ApiResponse where
  | err (status : Nat) (error : String)
  | photoMeta (requestId : String) (timestamp : Nat) (hasPhoto : Bool)
  | photoData (contentType : String) (cacheControl : String)
      (payload : List Nat)
deriving DecidableEq, Repr

/-- The HTTP status code of an `ApiResponse` (both non-error constructors
are sent with the default status 200). -/
def ApiResponse.status : ApiResponse → Nat
  | .err s _ => s
  | .photoMeta _ _ _ => 200
  | .photoData _ _ _ => 200

/-- JavaScript truthiness of the request's `authUserId`: `!userId` holds
when the middleware attached no id or attached the empty string. -/
def isFalsyId : Option String → Bool
  | none => true
  | some s => s = ""

/-- The `GET /api/latest-photo` handler: 401 if `authUserId` is falsy, 404
if `photos.get(userId)` is absent, else the JSON metadata of the cached
photo. -/
def latestPhotoRoute (st : AppState) (authUserId : Option String) :
    ApiResponse :=
  if isFalsyId authUserId then .err 401 "Not authenticated"
  else
    let userId := authUserId.getD ""
    match st.photos userId with
    | none => .err 404 "No photo available"
    | some photo => .photoMeta photo.requestId photo.timestamp true

/-- The `GET /api/photo/:requestId` handler: 401 if `authUserId` is falsy,
404 if no photo is cached for the user or its `requestId` differs from the
path parameter, else the binary payload with the stored MIME type and
`Cache-Control: no-cache`. -/
def photoRoute (st : AppState) (authUserId : Option String)
    (requestId : String) : ApiResponse :=
  if isFalsyId authUserId then .err 401 "Not authenticated"
  else
    let userId := authUserId.getD ""
    match st.photos userId with
    | none => .err 404 "Photo not found"
    | some photo =>
        if photo.requestId = requestId then
          .photoData photo.mimeType "no-cache" photo.buffer
        else .err 404 "Photo not found"

/-- The configuration the module-level constants resolve to.  `port` is
the result of `parseInt(process.env.PORT || '3000')`; `none` models the
`NaN` that `parseInt` yields on a string with no leading digits (the
process still starts in that case). -/
structure Config where
  packageName : String
  apiKey : String
  port : Option Nat
  googleMapsApiKey : String
deriving DecidableEq, Repr

/-- `parseInt` restricted to what the program can meet: the leading
decimal-digit run of the string, `none` for `NaN` when there is no such
run (sign, whitespace and radix prefixes are not modelled; ports are plain
decimal). -/
def jsParseNat (s : String) : Option Nat :=
  let digits := s.data.takeWhile Char.isDigit
  if digits.isEmpty then none
  else some (digits.foldl (fun acc c => acc * 10 + (c.toNat - 48)) 0)

/-- Evaluation of the module-level constant declarations
(`PACKAGE_NAME`, `MENTRAOS_API_KEY`, `PORT`, `GOOGLE_MAPS_API_KEY`), in
source order, against an environment.  The `??` fallbacks throw, so a
missing `PACKAGE_NAME`, `MENTRAOS_API_KEY` or `GOOGLE_MAPS_API_KEY` aborts
startup with the corresponding error; `PORT` instead uses `||`, so an
absent or empty `PORT` silently defaults to `'3000'`. -/
def loadConfig (env : String → Option String) : Except String Config :=
  match env "PACKAGE_NAME" with
  | none => .error "PACKAGE_NAME is not set in .env file"
  | some packageName =>
    match env "MENTRAOS_API_KEY" with
    | none => .error "MENTRAOS_API_KEY is not set in .env file"
    | some apiKey =>
      let portStr :=
        match env "PORT" with
        | none => "3000"
        | some s => if s = "" then "3000" else s
      match env "GOOGLE_MAPS_API_KEY" with
      | none => .error "GOOGLE_MAPS_API_KEY is not set in .env file"
      | some googleMapsApiKey =>
        .ok { packageName := packageName
              apiKey := apiKey
              port := jsParseNat portStr
              googleMapsApiKey := googleMapsApiKey }

/-- One entry of the geocoding response's `results` array (only
`formatted_address` is read). -/
structure GeoResult where
  formatted_address : String
deriving DecidableEq, Repr

/-- The parsed geocoding response body; `results := none` models a JSON
object whose `results` field is missing (falsy in the
`data.results && data.results.length > 0` check). -/
structure GeoData where
  results : Option (List GeoResult)
deriving DecidableEq, Repr

deriving instance DecidableEq for Except

/-- Outcome of one awaited `fetch`: a rejection (network failure), or a
response with its `ok` flag and the outcome of `response.json()` (which
itself can reject on a malformed body). -/
inductive FetchOutcome where
  | networkError
  | response (ok : Bool) (json : Except Unit GeoData)
deriving DecidableEq, Repr

/-- The URL the `reverseGeocode` template literal builds. -/
def geocodeUrl (lat lng apiKey : String) : String :=
  "https://maps.googleapis.com/maps/api/geocode/json?latlng=" ++ lat ++ ","
    ++ lng ++ "&key=" ++ apiKey

/-- `reverseGeocode(latitude, longitude)`, with the network abstracted as
a function from URL to `FetchOutcome`.  Returns the address (or `none`)
together with the number of `fetch` calls performed.  Every error path —
rejected fetch, `!response.ok` (rethrown then caught), malformed JSON,
missing or empty `results` — lands in `none`; the function is total, so no
exception reaches the caller. -/
def reverseGeocode (fetch : String → FetchOutcome)
    (latitude longitude apiKey : String) : Option String × Nat :=
  match fetch (geocodeUrl latitude longitude apiKey) with
  | .networkError => (none, 1)
  | .response ok json =>
      if ok = false then (none, 1)
      else
        match json with
        | .error _ => (none, 1)
        | .ok data =>
            match data.results with
            | some (r :: _) => (some r.formatted_address, 1)
            | some [] => (none, 1)
            | none => (none, 1)

/-! Helper lemmas about the map operations, shared by several claims. -/

theorem mapSet_self {α : Type} (m : String → Option α) (k : String) (v : α) :
    mapSet m k v k = some v := by
  simp [mapSet]

theorem mapSet_ne {α : Type} (m : String → Option α) (k : String) (v : α)
    (x : String) (h : x ≠ k) : mapSet m k v x = m x := by
  simp [mapSet, h]

/-- The photo route reads only `photos` at the authenticated user's key:
states that agree there give the same response. -/
theorem photoRoute_photos_congr (st st2 : AppState) (u rid : String)
    (h : st.photos u = st2.photos u) :
    photoRoute st (some u) rid = photoRoute st2 (some u) rid := by
  by_cases hu : u = ""
  · simp [photoRoute, isFalsyId, hu]
  · simp [photoRoute, isFalsyId, hu, h]

/-! Concrete sample data used by the witnesses. -/

/-- A sample photo as the camera would deliver it. -/
def samplePhotoData : PhotoData :=
  { requestId := "req-1"
    buffer := [1, 2, 3]
    timestamp := 1700000000000
    mimeType := "image/jpeg"
    filename := "photo.jpg"
    size := 3 }

/-- A second sample photo with a different request id. -/
def otherPhotoData : PhotoData :=
  { requestId := "req-2"
    buffer := [7, 8]
    timestamp := 1700000001000
    mimeType := "image/png"
    filename := "other.png"
    size := 2 }

/-- A state where only user `alice` has a cached photo (`req-1`). -/
def sampleState : AppState :=
  cachePhoto AppState.initial samplePhotoData "alice"

/-- A state where `bob` holds `req-1` and `alice` holds `req-2`. -/
def twoUserState : AppState :=
  cachePhoto (cachePhoto AppState.initial samplePhotoData "bob")
    otherPhotoData "alice"

/-- Claim C1: `GET /api/photo/:requestId` returns 401 when the request has
no (truthy) authenticated user id; 404 when no photo is cached for the
user or the cached photo's `requestId` differs from the path parameter;
otherwise 200 whose body is exactly the cached binary payload with the
stored MIME type as `Content-Type`. -/
theorem photoRoute_contract (st : AppState) (auth : Option String)
    (rid : String) :
    (isFalsyId auth = true →
      photoRoute st auth rid = .err 401 "Not authenticated") ∧
    (∀ u, auth = some u → isFalsyId auth = false →
      (st.photos u = none →
        photoRoute st auth rid = .err 404 "Photo not found") ∧
      (∀ p, st.photos u = some p → p.requestId ≠ rid →
        photoRoute st auth rid = .err 404 "Photo not found") ∧
      (∀ p, st.photos u = some p → p.requestId = rid →
        photoRoute st auth rid = .photoData p.mimeType "no-cache" p.buffer)) := by
  constructor
  · intro h
    simp [photoRoute, h]
  · rintro u rfl hfalse
    refine ⟨?_, ?_, ?_⟩
    · intro hnone
      simp [photoRoute, hfalse, hnone]
    · intro p hp hne
      simp [photoRoute, hfalse, hp, hne]
    · intro p hp heq
      simp [photoRoute, hfalse, hp, heq]

/-- Witness for C1: the three branches at concrete states. -/
theorem photoRoute_contract_witness :
    photoRoute sampleState none "req-1" = .err 401 "Not authenticated" ∧
    photoRoute sampleState (some "bob") "req-1" = .err 404 "Photo not found" ∧
    photoRoute sampleState (some "alice") "zzz" = .err 404 "Photo not found" ∧
    photoRoute sampleState (some "alice") "req-1"
      = .photoData "image/jpeg" "no-cache" [1, 2, 3] := by
  refine ⟨(photoRoute_contract sampleState none "req-1").1 (by decide),
    ((photoRoute_contract sampleState (some "bob") "req-1").2 "bob" rfl
      (by decide)).1 (by decide),
    ((photoRoute_contract sampleState (some "alice") "zzz").2 "alice" rfl
      (by decide)).2.1 (storedOf samplePhotoData "alice") (by decide)
      (by decide),
    ?_⟩
  exact ((photoRoute_contract sampleState (some "alice") "req-1").2 "alice"
    rfl (by decide)).2.2 (storedOf samplePhotoData "alice") (by decide)
    (by decide)

/-- Claim C7: `GET /api/latest-photo` returns 401 when the request has no
(truthy) authenticated user id; 404 when no photo is cached for the user;
otherwise 200 with JSON carrying the cached photo's `requestId`, its epoch
millisecond timestamp and `hasPhoto: true`. -/
theorem latestPhotoRoute_contract (st : AppState) (auth : Option String) :
    (isFalsyId auth = true →
      latestPhotoRoute st auth = .err 401 "Not authenticated") ∧
    (∀ u, auth = some u → isFalsyId auth = false →
      (st.photos u = none →
        latestPhotoRoute st auth = .err 404 "No photo available") ∧
      (∀ p, st.photos u = some p →
        latestPhotoRoute st auth = .photoMeta p.requestId p.timestamp true)) := by
  constructor
  · intro h
    simp [latestPhotoRoute, h]
  · rintro u rfl hfalse
    constructor
    · intro hnone
      simp [latestPhotoRoute, hfalse, hnone]
    · intro p hp
      simp [latestPhotoRoute, hfalse, hp]

/-- Witness for C7: the three branches at concrete states. -/
theorem latestPhotoRoute_contract_witness :
    latestPhotoRoute sampleState none = .err 401 "Not authenticated" ∧
    latestPhotoRoute sampleState (some "bob") = .err 404 "No photo available" ∧
    latestPhotoRoute sampleState (some "alice")
      = .photoMeta "req-1" 1700000000000 true := by
  refine ⟨(latestPhotoRoute_contract sampleState none).1 (by decide),
    ((latestPhotoRoute_contract sampleState (some "bob")).2 "bob" rfl
      (by decide)).1 (by decide),
    ?_⟩
  exact ((latestPhotoRoute_contract sampleState (some "alice")).2 "alice"
    rfl (by decide)).2 (storedOf samplePhotoData "alice") (by decide)

/-- Claim C8: the photo route's response for a request authenticated as
user `A` depends only on `A`'s own cache entry, and when the supplied id
matches another user `B`'s cached photo but not `A`'s, the response is 404
(so `B`'s payload is never returned). -/
theorem photoRoute_isolation (st st2 : AppState) (A B rid : String)
    (pB : StoredPhoto) :
    (st.photos A = st2.photos A →
      photoRoute st (some A) rid = photoRoute st2 (some A) rid) ∧
    (A ≠ "" → st.photos B = some pB → pB.requestId = rid →
      (∀ pA, st.photos A = some pA → pA.requestId ≠ rid) →
      photoRoute st (some A) rid = .err 404 "Photo not found") := by
  constructor
  · exact photoRoute_photos_congr st st2 A rid
  · intro hA hB hrid hAnot
    cases h : st.photos A with
    | none => simp [photoRoute, isFalsyId, hA, h]
    | some pA =>
        have hne : pA.requestId ≠ rid := hAnot pA h
        simp [photoRoute, isFalsyId, hA, h, hne]

/-- Witness for C8: `bob` holds `req-1`, `alice` holds `req-2`, and a
request by `alice` for `req-1` gets 404. -/
theorem photoRoute_isolation_witness :
    photoRoute twoUserState (some "alice") "req-1"
      = .err 404 "Photo not found" := by
  refine (photoRoute_isolation twoUserState twoUserState "alice" "bob"
    "req-1" (storedOf samplePhotoData "bob")).2 (by decide) (by decide)
    (by decide) ?_
  intro pA hpA
  have h2 : twoUserState.photos "alice"
      = some (storedOf otherPhotoData "alice") := by decide
  rw [h2, Option.some.injEq] at hpA
  subst hpA
  decide

/-- Claim C4: `cachePhoto` unconditionally overwrites the user's prior
cache entry and updates the last-timestamp index, leaving every other
user's entries untouched; a lookup afterwards returns exactly the new
photo, so each user has at most one stored photo. -/
theorem cachePhoto_contract (st : AppState) (photo : PhotoData)
    (u : String) :
    (cachePhoto st photo u).photos u = some (storedOf photo u) ∧
    (cachePhoto st photo u).latestPhotoTimestamp u = some photo.timestamp ∧
    (∀ v, v ≠ u →
      (cachePhoto st photo u).photos v = st.photos v ∧
      (cachePhoto st photo u).latestPhotoTimestamp v
        = st.latestPhotoTimestamp v) := by
  refine ⟨?_, ?_, ?_⟩
  · simp [cachePhoto, storedOf, mapSet]
  · simp [cachePhoto, mapSet]
  · intro v hv
    constructor
    · simp [cachePhoto, mapSet, hv]
    · simp [cachePhoto, mapSet, hv]

/-- Witness for C4: caching a second photo for `alice` overwrites her
`req-1` entry with `req-2` and leaves `bob` alone. -/
theorem cachePhoto_contract_witness :
    (cachePhoto sampleState otherPhotoData "alice").photos "alice"
      = some (storedOf otherPhotoData "alice") ∧
    (cachePhoto sampleState otherPhotoData "alice").latestPhotoTimestamp
      "alice" = some 1700000001000 ∧
    (cachePhoto sampleState otherPhotoData "alice").photos "bob"
      = sampleState.photos "bob" :=
  ⟨(cachePhoto_contract sampleState otherPhotoData "alice").1,
   (cachePhoto_contract sampleState otherPhotoData "alice").2.1,
   ((cachePhoto_contract sampleState otherPhotoData "alice").2.2 "bob"
     (by decide)).1⟩

/-- Claim C3: a `'long'` press toggles the user's streaming flag and
issues no photo request; any other press type issues exactly one photo
request, caching the photo for that user on success and leaving the
previously cached photo unchanged on failure. -/
theorem onButtonPress_contract (st : AppState) (u pressType : String)
    (outcome : CaptureOutcome) :
    (pressType = "long" →
      (onButtonPress st u pressType outcome).2 = 0 ∧
      (onButtonPress st u pressType outcome).1.isStreamingPhotos u
        = some (!((st.isStreamingPhotos u).getD false)) ∧
      (onButtonPress st u pressType outcome).1.photos = st.photos) ∧
    (pressType ≠ "long" →
      (onButtonPress st u pressType outcome).2 = 1 ∧
      (∀ photo t, outcome = .success photo t →
        (onButtonPress st u pressType outcome).1.photos u
          = some (storedOf photo u)) ∧
      (outcome = .failure →
        (onButtonPress st u pressType outcome).1 = st)) := by
  constructor
  · intro h
    refine ⟨by simp [onButtonPress, h], ?_, by simp [onButtonPress, h]⟩
    simp [onButtonPress, h, mapSet]
  · intro h
    refine ⟨?_, ?_, ?_⟩
    · cases outcome with
      | success photo t => simp [onButtonPress, h]
      | failure => simp [onButtonPress, h]
    · rintro photo t rfl
      simp [onButtonPress, h, cachePhoto, storedOf, mapSet]
    · rintro rfl
      simp [onButtonPress, h]

/-- Witness for C3: a long press toggles without touching the cache, a
short press caches on success and is a no-op on the cache on failure. -/
theorem onButtonPress_contract_witness :
    (onButtonPress sampleState "alice" "long" .failure).2 = 0 ∧
    (onButtonPress sampleState "alice" "long" .failure).1.isStreamingPhotos
      "alice" = some true ∧
    (onButtonPress sampleState "alice" "short"
      (.success otherPhotoData 5)).1.photos "alice"
      = some (storedOf otherPhotoData "alice") ∧
    (onButtonPress sampleState "alice" "short" .failure).1 = sampleState := by
  refine ⟨((onButtonPress_contract sampleState "alice" "long" .failure).1
      rfl).1, ?_, ?_, ?_⟩
  · have h := ((onButtonPress_contract sampleState "alice" "long"
      .failure).1 rfl).2.1
    rw [h]
    decide
  · exact ((onButtonPress_contract sampleState "alice" "short"
      (.success otherPhotoData 5)).2 (by decide)).2.1 otherPhotoData 5 rfl
  · exact ((onButtonPress_contract sampleState "alice" "short"
      .failure).2 (by decide)).2.2 rfl

/-- Claim C9: performing the long-press toggle twice restores the
streaming flag: whatever boolean was stored before, it is stored again
afterwards, and the effective (polling) value of the flag is always
restored, even when the entry was initially absent. -/
theorem longPress_double_toggle (st : AppState) (u : String)
    (o1 o2 : CaptureOutcome) :
    (((onButtonPress (onButtonPress st u "long" o1).1 u "long"
        o2).1.isStreamingPhotos u).getD false
      = (st.isStreamingPhotos u).getD false) ∧
    (∀ b, st.isStreamingPhotos u = some b →
      (onButtonPress (onButtonPress st u "long" o1).1 u "long"
        o2).1.isStreamingPhotos u = some b) := by
  constructor
  · simp [onButtonPress, mapSet]
  · intro b hb
    simp [onButtonPress, mapSet, hb]

/-- Witness for C9: starting from `alice`'s initialised (false) flag, two
long presses end with the flag false again. -/
theorem longPress_double_toggle_witness :
    (onButtonPress (onButtonPress (onSessionInit sampleState "alice" 0)
      "alice" "long" .failure).1 "alice" "long"
      .failure).1.isStreamingPhotos "alice" = some false :=
  (longPress_double_toggle (onSessionInit sampleState "alice" 0) "alice"
    .failure .failure).2 false (by decide)

/-- A state where `alice` has `req-1` cached, her streaming flag is on and
her next-capture-time is 100. -/
def streamingState : AppState :=
  { sampleState with
    isStreamingPhotos := mapSet sampleState.isStreamingPhotos "alice" true
    nextPhotoTime := mapSet sampleState.nextPhotoTime "alice" 100 }

/-- Claim C2: a poll tick attempts a capture exactly when the streaming
flag is true and the tick time strictly exceeds the stored
next-capture-time (absent entries count as 0); an unattempted tick leaves
the state untouched; an attempted tick that succeeds leaves
next-capture-time at the completion time and caches the photo, while one
that fails leaves next-capture-time at the advanced value
`now + 30000` and the cache untouched. -/
theorem pollTick_contract (st : AppState) (u : String) (now : Nat)
    (o : CaptureOutcome) :
    ((pollTick st u now o).2 = true ↔
      (st.isStreamingPhotos u).getD false = true
        ∧ now > (st.nextPhotoTime u).getD 0) ∧
    ((pollTick st u now o).2 = false → (pollTick st u now o).1 = st) ∧
    ((pollTick st u now o).2 = true →
      (∀ photo t, o = .success photo t →
        (pollTick st u now o).1.nextPhotoTime u = some t ∧
        (pollTick st u now o).1.photos u = some (storedOf photo u)) ∧
      (o = .failure →
        (pollTick st u now o).1.nextPhotoTime u = some (now + 30000) ∧
        (pollTick st u now o).1.photos = st.photos)) := by
  by_cases hg : (st.isStreamingPhotos u).getD false = true
      ∧ now > (st.nextPhotoTime u).getD 0
  · cases o with
    | success photo t =>
        refine ⟨by simp [pollTick, hg], by simp [pollTick, hg], ?_⟩
        intro _
        constructor
        · rintro photo' t' h
          injection h with h1 h2
          subst h1; subst h2
          constructor
          · simp [pollTick, hg, cachePhoto, mapSet]
          · simp [pollTick, hg, cachePhoto, storedOf, mapSet]
        · intro h
          exact absurd h (by simp)
    | failure =>
        refine ⟨by simp [pollTick, hg], by simp [pollTick, hg], ?_⟩
        intro _
        constructor
        · rintro photo' t' h
          exact absurd h (by simp)
        · intro _
          constructor
          · simp [pollTick, hg, mapSet]
          · simp [pollTick, hg]
  · refine ⟨by simp [pollTick, hg], ?_, ?_⟩
    · intro _
      simp [pollTick, hg]
    · intro h
      rw [show (pollTick st u now o).2 = false by simp [pollTick, hg]] at h
      exact absurd h (by simp)

/-- Witness for C2: a due tick captures and resets timing, a failing due
tick keeps the advanced guard value, and an idle user's tick is a no-op. -/
theorem pollTick_contract_witness :
    (pollTick streamingState "alice" 101 (.success otherPhotoData 200)).2
      = true ∧
    (pollTick streamingState "alice" 101
      (.success otherPhotoData 200)).1.nextPhotoTime "alice" = some 200 ∧
    (pollTick streamingState "alice" 101
      (.success otherPhotoData 200)).1.photos "alice"
      = some (storedOf otherPhotoData "alice") ∧
    (pollTick streamingState "alice" 101 .failure).1.nextPhotoTime "alice"
      = some (101 + 30000) ∧
    (pollTick sampleState "alice" 101 .failure).1 = sampleState := by
  have hs := pollTick_contract streamingState "alice" 101
    (.success otherPhotoData 200)
  have hat : (pollTick streamingState "alice" 101
      (.success otherPhotoData 200)).2 = true :=
    hs.1.mpr ⟨by decide, by decide⟩
  have hf := pollTick_contract streamingState "alice" 101 .failure
  have hft : (pollTick streamingState "alice" 101 .failure).2 = true :=
    hf.1.mpr ⟨by decide, by decide⟩
  have hn := pollTick_contract sampleState "alice" 101 .failure
  exact ⟨hat, ((hs.2.2 hat).1 otherPhotoData 200 rfl).1,
    ((hs.2.2 hat).1 otherPhotoData 200 rfl).2,
    ((hf.2.2 hft).2 rfl).1,
    hn.2.1 (by decide)⟩

/-- A tick for a user whose streaming flag is effectively false attempts
nothing and changes nothing. -/
theorem pollTick_not_streaming (st : AppState) (u : String) (now : Nat)
    (o : CaptureOutcome)
    (h : (st.isStreamingPhotos u).getD false = false) :
    pollTick st u now o = (st, false) := by
  simp [pollTick, h]

/-- A whole tick sequence for a non-streaming user attempts no capture
and is the identity on the state. -/
theorem runPoll_not_streaming (st : AppState) (u : String)
    (h : (st.isStreamingPhotos u).getD false = false)
    (ticks : List (Nat × CaptureOutcome)) :
    runPoll st u ticks = (st, 0) := by
  induction ticks with
  | nil => rfl
  | cons hd tl ih =>
      obtain ⟨t, o⟩ := hd
      simp [runPoll, pollTick_not_streaming st u t o h, ih]

/-- Claim C5: `onStop` forces the user's streaming flag to false and
deletes the next-capture-time entry while leaving the photo cache alone;
consequently no subsequent poll tick for that user attempts a capture, and
the photo route answers exactly as before the stop. -/
theorem onStop_contract (st : AppState) (u : String) :
    (onStop st u).isStreamingPhotos u = some false ∧
    (onStop st u).nextPhotoTime u = none ∧
    (onStop st u).photos = st.photos ∧
    ∀ ticks : List (Nat × CaptureOutcome),
      (runPoll (onStop st u) u ticks).2 = 0 ∧
      ∀ rid, photoRoute (runPoll (onStop st u) u ticks).1 (some u) rid
        = photoRoute st (some u) rid := by
  have hflag : ((onStop st u).isStreamingPhotos u).getD false = false := by
    simp [onStop, mapSet]
  refine ⟨by simp [onStop, mapSet], by simp [onStop, mapDelete], rfl, ?_⟩
  intro ticks
  rw [runPoll_not_streaming (onStop st u) u hflag ticks]
  exact ⟨rfl, fun rid => photoRoute_photos_congr (onStop st u) st u rid rfl⟩

/-- Witness for C5: after stopping `alice` mid-stream, two due-looking
ticks capture nothing and her cached `req-1` stays served. -/
theorem onStop_contract_witness :
    (runPoll (onStop streamingState "alice") "alice"
      [(40000, .success otherPhotoData 40001), (80000, .failure)]).2 = 0 ∧
    photoRoute (runPoll (onStop streamingState "alice") "alice"
      [(40000, .success otherPhotoData 40001), (80000, .failure)]).1
      (some "alice") "req-1"
      = photoRoute streamingState (some "alice") "req-1" :=
  ⟨((onStop_contract streamingState "alice").2.2.2
      [(40000, .success otherPhotoData 40001), (80000, .failure)]).1,
   ((onStop_contract streamingState "alice").2.2.2
      [(40000, .success otherPhotoData 40001), (80000, .failure)]).2
      "req-1"⟩

/-- Claim C10: `reverseGeocode` performs exactly one outbound GET and its
result is the first geocoding result's formatted address precisely when
the fetch produced an `ok` response whose JSON parsed to a non-empty
`results` list; in every other situation (rejected fetch, non-ok status,
malformed JSON, missing or empty `results`) it returns absent — and being
a total function it never throws. -/
theorem reverseGeocode_contract (fetch : String → FetchOutcome)
    (lat lng key : String) :
    (reverseGeocode fetch lat lng key).2 = 1 ∧
    ∀ a : String, (reverseGeocode fetch lat lng key).1 = some a ↔
      ∃ data r rest, fetch (geocodeUrl lat lng key)
          = .response true (.ok data) ∧
        data.results = some (r :: rest) ∧ a = r.formatted_address := by
  cases hf : fetch (geocodeUrl lat lng key) with
  | networkError => simp [reverseGeocode, hf]
  | response ok json =>
      cases ok with
      | false => simp [reverseGeocode, hf]
      | true =>
          cases json with
          | error e => simp [reverseGeocode, hf]
          | ok data =>
              cases hr : data.results with
              | none => simp [reverseGeocode, hf, hr]
              | some l =>
                  cases l with
                  | nil => simp [reverseGeocode, hf, hr]
                  | cons r rest =>
                      refine ⟨by simp [reverseGeocode, hf, hr], ?_⟩
                      intro a
                      constructor
                      · intro h
                        simp [reverseGeocode, hf, hr] at h
                        exact ⟨data, r, rest, rfl, hr, h.symm⟩
                      · rintro ⟨data', r', rest', hd, hres, ha⟩
                        injection hd with h1 h2
                        injection h2 with h3
                        subst h3
                        rw [hr] at hres
                        injection hres with h4
                        injection h4 with h5 h6
                        subst h5
                        simp [reverseGeocode, hf, hr, ha]

/-- Witness for C10: a successful geocode returns the first address; a
non-ok response and a rejected fetch return absent; every call makes one
GET. -/
theorem reverseGeocode_contract_witness :
    (reverseGeocode
      (fun _ => .response true (.ok ⟨some [⟨"1 Main St"⟩, ⟨"2 Oak Ave"⟩]⟩))
      "1.5" "2.5" "k").1 = some "1 Main St" ∧
    (reverseGeocode (fun _ => .response false (.ok ⟨some [⟨"1 Main St"⟩]⟩))
      "1.5" "2.5" "k").1 = none ∧
    (reverseGeocode (fun _ => .networkError) "1.5" "2.5" "k").1 = none ∧
    (reverseGeocode (fun _ => .networkError) "1.5" "2.5" "k").2 = 1 := by
  have hgood := reverseGeocode_contract
    (fun _ => .response true (.ok ⟨some [⟨"1 Main St"⟩, ⟨"2 Oak Ave"⟩]⟩))
    "1.5" "2.5" "k"
  have hbad := reverseGeocode_contract
    (fun _ => .response false (.ok ⟨some [⟨"1 Main St"⟩]⟩)) "1.5" "2.5" "k"
  have hnet := reverseGeocode_contract (fun _ => .networkError)
    "1.5" "2.5" "k"
  refine ⟨(hgood.2 "1 Main St").mpr
      ⟨⟨some [⟨"1 Main St"⟩, ⟨"2 Oak Ave"⟩]⟩, ⟨"1 Main St"⟩, [⟨"2 Oak Ave"⟩],
        rfl, rfl, rfl⟩, ?_, ?_, hnet.1⟩
  · cases h : (reverseGeocode
        (fun _ => .response false (.ok ⟨some [⟨"1 Main St"⟩]⟩))
        "1.5" "2.5" "k").1 with
    | none => rfl
    | some a =>
        obtain ⟨data, r, rest, hd, -, -⟩ := (hbad.2 a).mp h
        exact absurd hd (by simp)
  · cases h : (reverseGeocode (fun _ => .networkError) "1.5" "2.5" "k").1
      with
    | none => rfl
    | some a =>
        obtain ⟨data, r, rest, hd, -, -⟩ := (hnet.2 a).mp h
        exact absurd hd (by simp)

/-- An environment carrying the three values the claim lists (package
identity, API key, port) but no Google Maps key. -/
def envMissingMaps : String → Option String := fun k =>
  if k = "PACKAGE_NAME" then some "com.example.app"
  else if k = "MENTRAOS_API_KEY" then some "mk-123"
  else if k = "PORT" then some "8080"
  else none

/-- An environment with the three keys the code actually demands and no
`PORT`. -/
def envNoPort : String → Option String := fun k =>
  if k = "PACKAGE_NAME" then some "com.example.app"
  else if k = "MENTRAOS_API_KEY" then some "mk-123"
  else if k = "GOOGLE_MAPS_API_KEY" then some "gm-456"
  else none

/-- Counterexample to C6: with package identity, API key and port all
present startup still fails (the code also demands `GOOGLE_MAPS_API_KEY`),
and with `PORT` absent startup does not fail fast at all — it defaults the
port to 3000. -/
theorem loadConfig_claim_counterexample :
    loadConfig envMissingMaps
      = .error "GOOGLE_MAPS_API_KEY is not set in .env file" ∧
    ∃ c, loadConfig envNoPort = .ok c ∧ c.port = some 3000 :=
  ⟨by decide,
   ⟨{ packageName := "com.example.app", apiKey := "mk-123",
      port := some 3000, googleMapsApiKey := "gm-456" }, by decide, rfl⟩⟩

/-- Claim C6 as amended: startup succeeds exactly when the package
identity, the MentraOS API key and the Google Maps API key are all
present (failing fast otherwise), and the port is optional, defaulting to
3000 when not supplied. -/
theorem loadConfig_contract (env : String → Option String) :
    ((∃ c, loadConfig env = .ok c) ↔
      (env "PACKAGE_NAME").isSome = true
        ∧ (env "MENTRAOS_API_KEY").isSome = true
        ∧ (env "GOOGLE_MAPS_API_KEY").isSome = true) ∧
    (env "PORT" = none →
      ∀ c, loadConfig env = .ok c → c.port = some 3000) := by
  cases hp : env "PACKAGE_NAME" with
  | none => simp [loadConfig, hp]
  | some pn =>
      cases hm : env "MENTRAOS_API_KEY" with
      | none => simp [loadConfig, hp, hm]
      | some mk =>
          cases hg : env "GOOGLE_MAPS_API_KEY" with
          | none => simp [loadConfig, hp, hm, hg]
          | some gm =>
              constructor
              · simp [loadConfig, hp, hm, hg]
              · intro hport c hc
                have hload : loadConfig env
                    = .ok { packageName := pn, apiKey := mk,
                            port := jsParseNat "3000",
                            googleMapsApiKey := gm } := by
                  simp [loadConfig, hp, hm, hg, hport]
                rw [hload] at hc
                injection hc with h1
                rw [← h1]
                show jsParseNat "3000" = some 3000
                decide

/-- Witness for the amended C6: the code's three required keys suffice and
a missing `PORT` resolves to 3000. -/
theorem loadConfig_contract_witness :
    ∃ c, loadConfig envNoPort = .ok c ∧ c.port = some 3000 := by
  obtain ⟨c, hc⟩ := (loadConfig_contract envNoPort).1.mpr
    ⟨by decide, by decide, by decide⟩
  exact ⟨c, hc, (loadConfig_contract envNoPort).2 (by decide) c hc⟩
